import Mathlib

/-!
Verification of the preft encrypted-persistence and schema-migration core.

This file shallowly embeds the core of the repository (src/encryption.rs,
src/encryption_config.rs, src/db.rs, src/db/migrations.rs, src/models.rs,
src/settings.rs) as executable Lean definitions, and settles the frozen
claims about it.

Modelling conventions:
* Rust `String` values flowing through the cipher and the settings payload
  are modelled as their byte sequences (`ByteStr := List Nat`, each entry a
  byte `< 256`); Rust `String` values in the category/flow schema (names,
  stored custom-field values) are modelled as Lean `String`.
* SQLite is modelled as an explicit state (`DbState`) of the three tables
  plus the migrations ledger.  A rusqlite transaction is modelled by
  `runTx`: the body runs on a working copy and the committed state is the
  original state whenever the body fails (rollback-on-drop semantics of
  `rusqlite::Transaction`).  Each fallible SQL statement inside the restore
  transaction takes an injected fault flag modelling an I/O failure of that
  statement.
* External collaborators that are not code of this repository (the sha2,
  aes-gcm, base64, serde_json, chrono and keyring crates, and the process
  RNG) are either implemented concretely where their behaviour is fixed and
  relevant (base64, the authenticated-encryption wire format) or passed as
  explicit function parameters (`Ext`) where only their interface matters
  (serde serializers/deserializers, numeric/date parsers, the clock, the
  RNG seed).  Their doc comments say what they model.
* `f64` column values are carried opaquely (never computed with), so the
  flow `amount` REAL column is modelled as an opaque integer payload.
-/

namespace Preft

/-- A Rust byte string (`Vec<u8>` / the UTF-8 bytes of a `String`);
each entry is intended to be a byte `< 256`. -/
abbrev ByteStr := List Nat

/-- Errors surfaced by the modelled core.  The constructors name the
concrete error values the Rust code produces: `queryReturnedNoRows` is
`rusqlite::Error::QueryReturnedNoRows`, `notFound` is the
`anyhow!("Category not found: {}")` error of `save_category`,
`preconditionFailed` is `anyhow!("Cannot create encrypted backup: ...")`,
`passwordRequired` is the "Encrypted backup detected but no password
provided" error, and so on. -/
inductive DbError where
  | queryReturnedNoRows
  | notFound (id : String)
  | invalidParam
  | serdeError
  | migrationValidationFailed
  | sqliteFailure
  | preconditionFailed
  | passwordRequired
  | passwordMismatch
  | backupMissing
  | base64DecodeFailed
  | invalidEncryptedData
  | decryptError
  | invalidUtf8
  | keyringError
  deriving DecidableEq, Repr

/-! ## Base64 (models the `base64` crate's `general_purpose::STANDARD` engine,
which is external to this repository).  Encoding and decoding work on byte
strings; the encoded text is itself a `ByteStr` of ASCII codes. -/

/-- The standard base64 alphabet as ASCII codes: A-Z, a-z, 0-9, +, /. -/
def b64Table : List Nat :=
  [65, 66, 67, 68, 69, 70, 71, 72, 73, 74, 75, 76, 77, 78, 79, 80, 81, 82,
   83, 84, 85, 86, 87, 88, 89, 90,
   97, 98, 99, 100, 101, 102, 103, 104, 105, 106, 107, 108, 109, 110, 111,
   112, 113, 114, 115, 116, 117, 118, 119, 120, 121, 122,
   48, 49, 50, 51, 52, 53, 54, 55, 56, 57, 43, 47]

/-- ASCII code of the base64 character for a sextet. -/
def b64CharOf (s : Nat) : Nat := b64Table.getD s 65

/-- Sextet value of a base64 character (none for characters outside the
alphabet, in particular for the padding character 61 = ASCII `=`). -/
def b64SextetOf (c : Nat) : Option Nat := List.findIdx? (fun x => x == c) b64Table

/-- Base64-encode a byte string (with `=` padding, as the STANDARD engine). -/
def b64Encode : ByteStr → ByteStr
  | [] => []
  | [b0] => [b64CharOf (b0 / 4), b64CharOf (b0 % 4 * 16), 61, 61]
  | [b0, b1] =>
      [b64CharOf (b0 / 4), b64CharOf (b0 % 4 * 16 + b1 / 16),
       b64CharOf (b1 % 16 * 4), 61]
  | b0 :: b1 :: b2 :: rest =>
      b64CharOf (b0 / 4) :: b64CharOf (b0 % 4 * 16 + b1 / 16) ::
      b64CharOf (b1 % 16 * 4 + b2 / 64) :: b64CharOf (b2 % 64) ::
      b64Encode rest

/-- Decode one full quad of base64 characters into three bytes. -/
def b64DecodeQuad (c0 c1 c2 c3 : Nat) : Option ByteStr :=
  match b64SextetOf c0, b64SextetOf c1, b64SextetOf c2, b64SextetOf c3 with
  | some s0, some s1, some s2, some s3 =>
      some [s0 * 4 + s1 / 16, s1 % 16 * 16 + s2 / 4, s2 % 4 * 64 + s3]
  | _, _, _, _ => none

/-- Decode the final quad, which may carry `=` padding.  The STANDARD engine
rejects non-zero trailing bits, which the `% 16 = 0` and `% 4 = 0` checks
model. -/
def b64DecodeLast (c0 c1 c2 c3 : Nat) : Option ByteStr :=
  if c2 = 61 ∧ c3 = 61 then
    match b64SextetOf c0, b64SextetOf c1 with
    | some s0, some s1 =>
        if s1 % 16 = 0 then some [s0 * 4 + s1 / 16] else none
    | _, _ => none
  else if c3 = 61 then
    match b64SextetOf c0, b64SextetOf c1, b64SextetOf c2 with
    | some s0, some s1, some s2 =>
        if s2 % 4 = 0 then some [s0 * 4 + s1 / 16, s1 % 16 * 16 + s2 / 4]
        else none
    | _, _, _ => none
  else b64DecodeQuad c0 c1 c2 c3

/-- Base64-decode; fails on any malformed input (bad length, characters
outside the alphabet, misplaced padding, non-zero trailing bits).  Padding
is only accepted in the final quad. -/
def b64Decode : ByteStr → Option ByteStr
  | [] => some []
  | [c0, c1, c2, c3] => b64DecodeLast c0 c1 c2 c3
  | c0 :: c1 :: c2 :: c3 :: c4 :: rest =>
      match b64DecodeQuad c0 c1 c2 c3, b64Decode (c4 :: rest) with
      | some bs, some tail => some (bs ++ tail)
      | _, _ => none
  | _ => none

/-! ## UTF-8 validity (models `String::from_utf8` of the Rust standard
library, external to this repository). -/

/-- A UTF-8 continuation byte. -/
def utf8Cont (b : Nat) : Bool := 128 ≤ b && b ≤ 191

/-- UTF-8 validity of a byte string, following the standard table
(RFC 3629): rejects overlong encodings, surrogates and values above
U+10FFFF, as Rust's `String::from_utf8` does. -/
def utf8Valid : List Nat → Bool
  | [] => true
  | b :: rest =>
      if b < 128 then utf8Valid rest
      else if 194 ≤ b && b ≤ 223 then
        match rest with
        | c1 :: r => utf8Cont c1 && utf8Valid r
        | [] => false
      else if 224 ≤ b && b ≤ 239 then
        match rest with
        | c1 :: c2 :: r =>
            (if b = 224 then 160 ≤ c1 && c1 ≤ 191
             else if b = 237 then 128 ≤ c1 && c1 ≤ 159
             else utf8Cont c1) && utf8Cont c2 && utf8Valid r
        | _ => false
      else if 240 ≤ b && b ≤ 244 then
        match rest with
        | c1 :: c2 :: c3 :: r =>
            (if b = 240 then 144 ≤ c1 && c1 ≤ 191
             else if b = 244 then 128 ≤ c1 && c1 ≤ 143
             else utf8Cont c1) && utf8Cont c2 && utf8Cont c3 && utf8Valid r
        | _ => false
      else false

/-! ## Key derivation and cipher (src/encryption.rs) -/

/-- Modelled from the spec: the SHA-256 digest of the external `sha2` crate,
which is not code of this repository.  The claims depend only on it being a
fixed deterministic map from byte strings to 32-byte digests, so a concrete
executable mixing function of that shape stands in for the real compression
function. -/
def sha256Model (bs : ByteStr) : ByteStr :=
  (List.range 32).map
    (fun i => bs.foldl (fun a b => (a * 131 + b + 1) % 65536) (i * 37 + 11) % 256)

/-- Key-derivation pipeline of `DatabaseEncryption::new` (src/encryption.rs
lines 15-35): absorb `password` then `salt` (i.e. digest their
concatenation), then 10000 rounds of finalize-and-reabsorb, then the final
`finalize` — `sha256` applied 10001 times in total.  The same pipeline is
the body of `hash_password` (lines 45-58). -/
def deriveKeyBytes (password salt : ByteStr) : ByteStr :=
  sha256Model (Nat.iterate sha256Model 10000 (password ++ salt))

/-- `DatabaseEncryption`: holds the derived AES-256 key bytes. -/
structure DatabaseEncryption where
  key : ByteStr
  deriving DecidableEq, Repr

/-- `DatabaseEncryption::new(password, salt)` — always succeeds and stores
the first 32 bytes of the final digest (the whole 32-byte digest) as the
key. -/
def DatabaseEncryption.new (password salt : ByteStr) : DatabaseEncryption :=
  ⟨deriveKeyBytes password salt⟩

/-- `DatabaseEncryption::hash_password(password, salt)` — the same
derivation pipeline as `new`, base64-encoded for storage. -/
def DatabaseEncryption.hash_password (password salt : ByteStr) : ByteStr :=
  b64Encode (deriveKeyBytes password salt)

/-- `DatabaseEncryption::verify_password` — recompute and compare. -/
def DatabaseEncryption.verify_password (password salt stored : ByteStr) : Bool :=
  DatabaseEncryption.hash_password password salt == stored

/-- Modelled from the spec: one keystream/tag byte of the external
`aes_gcm` crate's AES-256-GCM, which is not code of this repository.  The
claims depend only on the AEAD wire format (nonce ‖ ciphertext ‖ 16-byte
tag), on the keystream being a deterministic function of key, nonce and
position, and on decryption checking the recomputed tag — not on the real
block cipher, so a cheap deterministic mix stands in for it. -/
def gcmMixByte (key nonce : ByteStr) (i : Nat) : Nat :=
  (key.foldl (fun a b => a * 33 + b) 5 +
   nonce.foldl (fun a b => a * 131 + b) 7 + i * 97) % 256

/-- CTR keystream of length `n` for the modelled AEAD. -/
def gcmKeystream (key nonce : ByteStr) (n : Nat) : ByteStr :=
  (List.range n).map (gcmMixByte key nonce)

/-- 16-byte authentication tag of the modelled AEAD over the ciphertext. -/
def gcmTag (key nonce ct : ByteStr) : ByteStr :=
  (List.range 16).map
    (fun i => (gcmMixByte key nonce i +
               ct.foldl (fun a b => a * 251 + b) 3 + i * 13) % 256)

/-- Byte-wise xor of two byte strings. -/
def zipXor (a b : ByteStr) : ByteStr := List.zipWith (fun x y => x ^^^ y) a b

/-- The 12 random nonce bytes drawn from `rand::thread_rng`, modelled as a
function of an explicit seed (the RNG is an external collaborator). -/
def nonce12 (seed : Nat) : ByteStr :=
  (List.range 12).map (fun i => seed / 256 ^ i % 256)

/-- `DatabaseEncryption::encrypt` (src/encryption.rs lines 66-84): draw a
fresh 12-byte nonce, AEAD-encrypt, prepend the nonce and base64-encode the
combined blob. -/
def DatabaseEncryption.encrypt (enc : DatabaseEncryption) (seed : Nat)
    (data : ByteStr) : ByteStr :=
  let nonce := nonce12 seed
  let ct := zipXor data (gcmKeystream enc.key nonce data.length)
  b64Encode (nonce ++ (ct ++ gcmTag enc.key nonce ct))

/-- Final step of decryption: `String::from_utf8` over the recovered
plaintext bytes (fail: "Invalid UTF-8"). -/
def checkUtf8 (pt : ByteStr) : Except DbError ByteStr :=
  if utf8Valid pt then .ok pt else .error .invalidUtf8

/-- AEAD decryption of the post-nonce payload: the modelled cipher rejects
a payload shorter than the 16-byte tag and any payload whose recomputed tag
differs from the stored one (fail: "Decryption failed"), and otherwise
strips the keystream. -/
def decryptPayload (key nonce data : ByteStr) : Except DbError ByteStr :=
  if data.length < 16 then .error .decryptError
  else if data.drop (data.length - 16) =
      gcmTag key nonce (data.take (data.length - 16)) then
    checkUtf8 (zipXor (data.take (data.length - 16))
      (gcmKeystream key nonce (data.take (data.length - 16)).length))
  else .error .decryptError

/-- Split a decoded blob into the 12-byte nonce and the AEAD payload; a
blob shorter than the nonce is rejected (fail: "Invalid encrypted data"). -/
def decryptCombined (key combined : ByteStr) : Except DbError ByteStr :=
  if combined.length < 12 then .error .invalidEncryptedData
  else decryptPayload key (combined.take 12) (combined.drop 12)

/-- `DatabaseEncryption::decrypt` (src/encryption.rs lines 86-109):
base64-decode (fail: "Base64 decode failed"), require at least 12 bytes,
split nonce and ciphertext, AEAD-decrypt failing closed on a bad tag or
truncated tag, and re-validate UTF-8. -/
def DatabaseEncryption.decrypt (enc : DatabaseEncryption)
    (blob : ByteStr) : Except DbError ByteStr :=
  match b64Decode blob with
  | none => .error .base64DecodeFailed
  | some combined => decryptCombined enc.key combined

/-! ## Data model (src/models.rs, src/settings.rs) -/

/-- `FlowType` (src/models.rs). -/
inductive FlowType where
  | Income
  | Expense
  deriving DecidableEq, Repr

/-- `Display for FlowType`. -/
def FlowType.toText : FlowType → String
  | .Income => "Income"
  | .Expense => "Expense"

/-- `FieldType`.  src/models.rs declares Text, Number (deprecated), Date,
Boolean, Select; the migration and UI code (src/db/migrations.rs,
src/ui/category_editor.rs, src/ui/category_flows.rs) additionally matches
Integer, Float and Currency, so the full enum carries all variants. -/
inductive FieldType where
  | Text
  | Number
  | Integer
  | Float
  | Currency
  | Date
  | Boolean
  | Select (options : List String)
  deriving DecidableEq, Repr

/-- `TaxDeductionInfo` (src/models.rs). -/
structure TaxDeductionInfo where
  deduction_allowed : Bool
  default_value : Bool
  deriving DecidableEq, Repr

/-- `CategoryField` (src/models.rs). -/
structure CategoryField where
  name : String
  field_type : FieldType
  required : Bool
  default_value : Option String
  deriving DecidableEq, Repr

/-- `Category` (src/models.rs). -/
structure Category where
  id : String
  name : String
  flow_type : FlowType
  parent_id : Option String
  fields : List CategoryField
  tax_deduction : TaxDeductionInfo
  deriving DecidableEq, Repr

/-- `BackupEntry` (src/settings.rs); the `DateTime<Utc>` timestamp is
carried as an opaque integer. -/
structure BackupEntry where
  timestamp : Int
  file_path : String
  file_size : Option Nat
  success : Bool
  error_message : Option String
  deriving DecidableEq, Repr

/-- `UserSettings` (src/settings.rs); the `HashSet` of hidden categories is
carried as a list. -/
structure UserSettings where
  hidden_categories : List String
  year_filter : Option Int
  backup_history : List BackupEntry
  last_backup_path : Option String
  auto_backup_enabled : Bool
  auto_backup_directory : Option String
  auto_backup_encrypted : Option Bool
  deriving DecidableEq, Repr

/-- `UserSettings::new()` — fresh defaults; the year filter defaults to the
current year, taken from the (external) clock. -/
def UserSettings.new (currentYear : Int) : UserSettings :=
  ⟨[], some currentYear, [], none, false, none, none⟩

/-! ## Encryption configuration (src/encryption_config.rs) -/

/-- `EncryptionConfig`.  The password hash and salt are stored strings,
carried as byte strings. -/
structure EncryptionConfig where
  enabled : Bool
  password_hash : Option ByteStr
  salt : Option ByteStr
  database_encrypted : Bool
  deriving DecidableEq, Repr

/-- `EncryptionConfig::default()` — encryption enabled, no password, the
database not encrypted. -/
def EncryptionConfig.default : EncryptionConfig :=
  ⟨true, none, none, false⟩

/-- `EncryptionConfig::is_encryption_ready()`. -/
def EncryptionConfig.is_encryption_ready (c : EncryptionConfig) : Bool :=
  c.enabled && c.password_hash.isSome && c.salt.isSome

/-- `EncryptionConfig::verify_password` — false when hash or salt is
absent. -/
def EncryptionConfig.verify_password (c : EncryptionConfig)
    (password : ByteStr) : Bool :=
  match c.password_hash, c.salt with
  | some stored, some salt => DatabaseEncryption.verify_password password salt stored
  | _, _ => false

/-- Outcome of `keyring::Entry::get_password` (the platform vault is an
external collaborator): a stored value, `Error::NoEntry`, or any other
error. -/
inductive VaultRead where
  | value (s : String)
  | noEntry
  | failure
  deriving DecidableEq, Repr

/-- `EncryptionConfig::load()` (src/encryption_config.rs lines 31-51).
`entryOk` models whether `Entry::new` itself succeeds (its error
propagates via `?`); `de` models `serde_json::from_str::<EncryptionConfig>`
on the stored value (its error also propagates via `?`).  A missing entry
or any other vault read error yields the default config. -/
def EncryptionConfig.load (entryOk : Bool) (read : VaultRead)
    (de : String → Option EncryptionConfig) : Except DbError EncryptionConfig :=
  if entryOk then
    match read with
    | .value s =>
        match de s with
        | some c => .ok c
        | none => .error .serdeError
    | .noEntry => .ok EncryptionConfig.default
    | .failure => .ok EncryptionConfig.default
  else .error .keyringError

/-! ## The relational store (src/db.rs) -/

/-- A row of the `categories` table: the `fields` column is serialized
JSON text, the tax flags are the stored 0/1 integers. -/
structure CategoryRow where
  id : String
  name : String
  flow_type : String
  fields : String
  tax_deduction_allowed : Int
  tax_deduction_default : Int
  deriving DecidableEq, Repr

/-- A row of the `flows` table; `date`, `linked_flows` and `custom_fields`
are stored text, `amount` is the REAL column carried as an opaque payload
(no claim computes with it). -/
structure FlowRow where
  id : String
  date : String
  amount : Int
  category_id : String
  description : String
  linked_flows : String
  custom_fields : String
  tax_deductible : Option Int
  deriving DecidableEq, Repr

/-- The SQLite file contents: the three tables plus the migrations ledger.
`user_settings` is the singleton row with id 1 (the only row the code ever
writes). -/
structure DbState where
  categories : List CategoryRow
  flows : List FlowRow
  user_settings : Option ByteStr
  migrations : List (String × Int)
  deriving DecidableEq, Repr

/-- An empty store, as created by `initialize()` on a fresh file. -/
def emptyDbState : DbState := ⟨[], [], none, []⟩

/-- The in-process `Database` handle: connection state, optional cipher,
and the loaded encryption config. -/
structure Db where
  state : DbState
  encryption : Option DatabaseEncryption
  config : EncryptionConfig
  deriving DecidableEq, Repr

/-- External collaborators of the store, passed explicitly: the serde_json
serializers/deserializers for the stored JSON columns and the settings
payload, the numeric and date parsers of the Rust standard library and
chrono used by the flow migration, the clock, and the RNG seed used for
fresh nonces.  None of these are code of this repository. -/
structure Ext where
  serFields : List CategoryField → String
  deFields : String → Option (List CategoryField)
  serMap : List (String × String) → String
  deMap : String → Option (List (String × String))
  serSettings : UserSettings → ByteStr
  deSettings : ByteStr → Option UserSettings
  parseI64 : String → Option Int
  parseF64 : String → Option Rat
  dateYmd : String → Bool
  dateMdy : String → Option String
  currentYear : Int
  rngSeed : Nat

/-- Transaction runner: the body runs on a working copy; on success the
result is committed, on any failure the original state is kept (rusqlite
rolls a dropped, uncommitted transaction back). -/
def runTx (st : DbState) (body : DbState → Except DbError DbState) :
    DbState × Option DbError :=
  match body st with
  | .ok st1 => (st1, none)
  | .error e => (st, some e)

/-- `Database::is_encrypted()`. -/
def Db.is_encrypted (db : Db) : Bool := db.config.is_encryption_ready

/-- `Database::encrypt_data` — encrypt when a cipher is set, otherwise pass
the data through unchanged. -/
def Db.encrypt_data (db : Db) (seed : Nat) (data : ByteStr) : ByteStr :=
  match db.encryption with
  | some enc => enc.encrypt seed data
  | none => data

/-- `Database::decrypt_data` — decrypt when a cipher is set, otherwise pass
the data through unchanged. -/
def Db.decrypt_data (db : Db) (data : ByteStr) : Except DbError ByteStr :=
  match db.encryption with
  | some enc => enc.decrypt data
  | none => .ok data

/-- `Database::save_user_settings` — serialize, encrypt if enabled, upsert
the singleton row. -/
def Db.save_user_settings (ext : Ext) (db : Db) (s : UserSettings) : Db :=
  let payload := db.encrypt_data ext.rngSeed (ext.serSettings s)
  { db with state := { db.state with user_settings := some payload } }

/-- `Database::load_user_settings` (src/db.rs lines 229-258): no row yields
fresh defaults; a present row is decrypted (a decryption failure
propagates via `?`), then deserialized, and a deserialization failure
falls back to fresh defaults. -/
def Db.load_user_settings (ext : Ext) (db : Db) : Except DbError UserSettings :=
  match db.state.user_settings with
  | none => .ok (UserSettings.new ext.currentYear)
  | some blob => do
      let json ← db.decrypt_data blob
      match ext.deSettings json with
      | some s => pure s
      | none => pure (UserSettings.new ext.currentYear)

/-- `Database::get_category` (src/db.rs lines 260-297): `query_row` on a
missing id returns `Err(QueryReturnedNoRows)`, which falls into the
generic `Err(e) => Err(e.into())` arm (the `Ok(None)` arm matches
`ExecuteReturnedResults`, which a SELECT never produces); a present row is
deserialized, failing on an invalid flow type or bad fields JSON. -/
def getCategory (ext : Ext) (st : DbState) (category_id : String) :
    Except DbError (Option Category) :=
  match st.categories.find? (fun r => r.id == category_id) with
  | none => .error .queryReturnedNoRows
  | some r =>
      let ft? : Except DbError FlowType :=
        if r.flow_type = "Income" then .ok .Income
        else if r.flow_type = "Expense" then .ok .Expense
        else .error .invalidParam
      do
        let ft ← ft?
        match ext.deFields r.fields with
        | none => .error .invalidParam
        | some fs =>
            .ok (some ⟨r.id, r.name, ft, none, fs,
              ⟨r.tax_deduction_allowed ≠ 0, r.tax_deduction_default ≠ 0⟩⟩)

/-- Serialize a typed category into its table row (the write side of
`save_category`). -/
def rowOfCategory (ext : Ext) (c : Category) : CategoryRow :=
  ⟨c.id, c.name, c.flow_type.toText, ext.serFields c.fields,
   if c.tax_deduction.deduction_allowed then 1 else 0,
   if c.tax_deduction.default_value then 1 else 0⟩

/-- `INSERT OR REPLACE` on the categories table: replace the row with the
same primary key, or append. -/
def upsertCategoryRow (rows : List CategoryRow) (r : CategoryRow) :
    List CategoryRow :=
  if rows.any (fun x => x.id == r.id) then
    rows.map (fun x => if x.id == r.id then r else x)
  else rows ++ [r]

/-! ## Migration engine — category schema diff (src/db/migrations.rs) -/

/-- `has_schema_changes`: compare the field-name-to-type maps; any removed
field, added field, or changed type is a change. -/
def has_schema_changes (old_category new_category : Category) : Bool :=
  let oldFields := old_category.fields.map (fun f => (f.name, f.field_type))
  let newFields := new_category.fields.map (fun f => (f.name, f.field_type))
  let removed := oldFields.any (fun p => (newFields.lookup p.1).isNone)
  let added := newFields.any (fun p => (oldFields.lookup p.1).isNone)
  let changed := newFields.any (fun p =>
    match oldFields.lookup p.1 with
    | some t => !(t == p.2)
    | none => false)
  removed || added || changed

/-- Result of coercing one stored custom-field value to a field's new type:
leave the stored value untouched, overwrite it, or drop the field. -/
inductive Coerce where
  | keep
  | set (w : String)
  | drop
  deriving DecidableEq, Repr

/-- `i64` saturating truncation of `(float_val as i64)`: toward zero,
clamped to the i64 range. -/
def i64SatTrunc (q : Rat) : Int :=
  let t : Int := if q < 0 then -Rat.floor (-q) else Rat.floor q
  max (-(2 ^ 63)) (min (2 ^ 63 - 1) t)

/-- Whitespace characters stripped by `str::trim` (the ASCII subset; the
stored values the migration handles are ASCII tokens and numerals). -/
def rustIsSpace (c : Char) : Bool :=
  c == ' ' || c == '\t' || c == '\n' || c == '\r'

/-- `value.trim().is_empty()` of the source: every character is
whitespace. -/
def trimIsEmpty (v : String) : Bool := v.data.all rustIsSpace

/-- Lowercase one character (`str::to_lowercase`, ASCII range — the token
comparisons in the migration are against ASCII tokens). -/
def lowerChar (c : Char) : Char :=
  if 'A' ≤ c ∧ c ≤ 'Z' then Char.ofNat (c.toNat + 32) else c

/-- `value.to_lowercase()` of the source. -/
def rustLower (v : String) : String := ⟨v.data.map lowerChar⟩

/-- `value.replace(['$', ','], "")` of the source: delete every `$` and
`,`. -/
def stripCurrencyChars (v : String) : String :=
  ⟨v.data.filter (fun c => !(c == '$' || c == ','))⟩

/-- The per-value coercion applied by `migrate_flows_to_new_category`
(src/db/migrations.rs lines 308-413).  Values whose trimmed form is empty
are skipped.  Integer: keep a string the i64 parser accepts, truncate one
the f64 parser accepts, otherwise drop.  Float: keep an f64-parsable
string, widen an i64-parsable one, otherwise drop.  Currency: strip `$`
and `,` and keep the cleaned string when it parses as f64, otherwise drop.
Boolean: map the tokens true/1/yes/y and false/0/no/n case-insensitively,
otherwise drop.  Date: keep `YYYY-MM-DD`, reformat `MM/DD/YYYY`, otherwise
drop.  Text, Select and the deprecated Number are left alone.  (The f64
parse and the int-to-float rendering are exact for the integral values the
claims exercise; IEEE rounding of the external parser is outside the
model.) -/
def applyCoercion (ext : Ext) (ft : FieldType) (v : String) : Coerce :=
  if trimIsEmpty v then .keep
  else
    match ft with
    | .Integer =>
        match ext.parseI64 v with
        | some _ => .keep
        | none =>
            match ext.parseF64 v with
            | some q => .set (toString (i64SatTrunc q))
            | none => .drop
    | .Float =>
        match ext.parseF64 v with
        | some _ => .keep
        | none =>
            match ext.parseI64 v with
            | some n => .set (toString n)
            | none => .drop
    | .Currency =>
        let clean := stripCurrencyChars v
        match ext.parseF64 clean with
        | some _ => .set clean
        | none => .drop
    | .Boolean =>
        let w := rustLower v
        if w = "true" ∨ w = "1" ∨ w = "yes" ∨ w = "y" then .set "true"
        else if w = "false" ∨ w = "0" ∨ w = "no" ∨ w = "n" then .set "false"
        else .drop
    | .Date =>
        if ext.dateYmd v then .keep
        else
          match ext.dateMdy v with
          | some w => .set w
          | none => .drop
    | _ => .keep

/-- Replace the value of a key in an association map. -/
def assocSet (m : List (String × String)) (k w : String) :
    List (String × String) :=
  m.map (fun kv => if kv.1 == k then (kv.1, w) else kv)

/-- Remove a key from an association map. -/
def assocErase (m : List (String × String)) (k : String) :
    List (String × String) :=
  m.filter (fun kv => !(kv.1 == k))

/-- One flow's custom-field migration: drop fields absent from the new
schema, then coerce the remaining values per the new types; returns the new
map and whether the flow was modified. -/
def migrateCustomFields (ext : Ext) (typeMap : List (String × FieldType))
    (m0 : List (String × String)) : List (String × String) × Bool :=
  let removedAny := m0.any (fun kv => (typeMap.lookup kv.1).isNone)
  let m1 := m0.filter (fun kv => (typeMap.lookup kv.1).isSome)
  typeMap.foldl
    (fun acc p =>
      match acc.1.lookup p.1 with
      | none => acc
      | some v =>
          match applyCoercion ext p.2 v with
          | .keep => acc
          | .set w => (assocSet acc.1 p.1 w, true)
          | .drop => (assocErase acc.1 p.1, true))
    (m1, removedAny)

/-- `migrate_flows_to_new_category`: for each flow of the category, parse
its custom-fields JSON (a parse failure aborts), migrate the map, and
rewrite the row only when it was modified. -/
def migrateFlowsTx (ext : Ext) (old_category new_category : Category)
    (st : DbState) : Except DbError DbState :=
  if !has_schema_changes old_category new_category then .ok st
  else do
    let typeMap := new_category.fields.map (fun f => (f.name, f.field_type))
    let flows1 ← st.flows.mapM (fun fr =>
      if fr.category_id == new_category.id then
        match ext.deMap fr.custom_fields with
        | none => .error .invalidParam
        | some m0 =>
            let r := migrateCustomFields ext typeMap m0
            if r.2 then .ok { fr with custom_fields := ext.serMap r.1 }
            else .ok fr
      else .ok fr)
    .ok { st with flows := flows1 }

/-- Transaction body of `Database::save_category` (src/db.rs lines
299-330): read the old category (a missing row surfaces the raw
`QueryReturnedNoRows` error; the authored `Category not found` error sits
behind the unreachable `Ok(None)` arm), upsert the new row, and migrate
flows when the field schema changed. -/
def saveCategoryTx (ext : Ext) (c : Category) (st : DbState) :
    Except DbError DbState := do
  let old0 ← getCategory ext st c.id
  let old ← match old0 with
    | some o => Except.ok o
    | none => Except.error (.notFound c.id)
  let st1 := { st with categories := upsertCategoryRow st.categories (rowOfCategory ext c) }
  if has_schema_changes old c then migrateFlowsTx ext old c st1
  else .ok st1

/-- `Database::save_category`: the transactional wrapper; the pair carries
the committed state and the error (the state is unchanged on error). -/
def Db.save_category (ext : Ext) (db : Db) (c : Category) :
    Db × Option DbError :=
  let r := runTx db.state (saveCategoryTx ext c)
  ({ db with state := r.1 }, r.2)

/-! ## Migration engine — versioned data migrations
(src/db/migrations.rs lines 8-185) -/

/-- The single built-in migration's ledger key. -/
def numberToFloatKey : String × Int := ("convert_number_to_float", 1)

/-- `convert_number_to_float`: parse every category's fields JSON (a parse
failure aborts), turn every deprecated `Number` field into `Float`, and
rewrite only the modified categories. -/
def convertNumberToFloat (ext : Ext) (st : DbState) : Except DbError DbState := do
  let rows ← st.categories.mapM (fun r =>
    match ext.deFields r.fields with
    | none => Except.error DbError.invalidParam
    | some fs =>
        if fs.any (fun f => f.field_type == FieldType.Number) then
          let fs1 := fs.map (fun f =>
            if f.field_type == FieldType.Number then
              { f with field_type := FieldType.Float }
            else f)
          Except.ok { r with fields := ext.serFields fs1 }
        else Except.ok r)
  .ok { st with categories := rows }

/-- `validate_migration`: re-parse every category and report false as soon
as an unconverted `Number` field is found (later rows are then not
examined, as in the early-returning loop of the source). -/
def validateMigration (ext : Ext) : List CategoryRow → Except DbError Bool
  | [] => .ok true
  | r :: rest =>
      match ext.deFields r.fields with
      | none => .error .invalidParam
      | some fs =>
          if fs.any (fun f => f.field_type == FieldType.Number) then .ok false
          else validateMigration ext rest

/-- `run_migrations` (src/db/migrations.rs lines 8-78): ensure the ledger
table, skip the migration when its (name, version) pair is already
recorded, otherwise run body + validator in one transaction and append the
ledger row only on validator success; a body error or validator failure
fails the whole call (the transaction rolls back and startup fails). -/
def run_migrations (ext : Ext) (st : DbState) : Except DbError DbState :=
  if numberToFloatKey ∈ st.migrations then .ok st
  else do
    let st1 ← convertNumberToFloat ext st
    let ok ← validateMigration ext st1.categories
    if ok then
      .ok { st1 with migrations := st1.migrations ++ [numberToFloatKey] }
    else .error .migrationValidationFailed

/-! ## Default seed data (src/models.rs get_default_categories) -/

/-- `get_default_categories()` — the nine built-in categories. -/
def getDefaultCategories : List Category :=
  [⟨"salary", "Salary", .Income, none,
    [⟨"employer", .Text, true, none⟩,
     ⟨"pay_period", .Select ["Monthly", "Bi-weekly", "Weekly"], true, some "Monthly"⟩],
    ⟨false, false⟩⟩,
   ⟨"passive_income", "Passive Income", .Income, none,
    [⟨"source", .Text, true, none⟩,
     ⟨"type", .Select ["Investment", "Rental", "Royalty", "Other"], true, none⟩],
    ⟨false, false⟩⟩,
   ⟨"taxes_paid", "Taxes Paid", .Expense, none,
    [⟨"tax_type", .Select ["Federal", "State", "Local", "Property", "Other"], true, none⟩,
     ⟨"tax_year", .Number, true, none⟩],
    ⟨true, true⟩⟩,
   ⟨"cash_donations", "Cash Donations", .Expense, none,
    [⟨"recipient", .Text, true, none⟩],
    ⟨true, true⟩⟩,
   ⟨"in_kind_donations", "In-Kind Donations", .Expense, none,
    [⟨"recipient", .Text, true, none⟩,
     ⟨"item_description", .Text, true, none⟩],
    ⟨true, true⟩⟩,
   ⟨"medical", "Medical", .Expense, none,
    [⟨"provider", .Text, true, none⟩,
     ⟨"type", .Select ["Doctor Visit", "Prescription", "Procedure", "Equipment", "Other"], true, none⟩,
     ⟨"insurance_covered", .Boolean, true, some "false"⟩],
    ⟨true, true⟩⟩,
   ⟨"dental", "Dental", .Expense, none,
    [⟨"provider", .Text, true, none⟩,
     ⟨"type", .Select ["Cleaning", "Checkup", "Procedure", "Orthodontics", "Other"], true, none⟩,
     ⟨"insurance_covered", .Boolean, true, some "false"⟩],
    ⟨true, true⟩⟩,
   ⟨"other_expense", "Other Expense", .Expense, none,
    [⟨"description", .Text, true, none⟩,
     ⟨"recurring", .Boolean, true, some "false"⟩],
    ⟨true, false⟩⟩,
   ⟨"other_income", "Other Income", .Income, none,
    [⟨"source", .Text, true, none⟩,
     ⟨"recurring", .Boolean, true, some "false"⟩],
    ⟨false, false⟩⟩]

/-- `Database::new()` (src/db.rs lines 20-59): open the store, ensure the
schema, run migrations, seed the default categories when the categories
table is empty (each via `save_category`, whose error propagates via `?`),
and seed default settings when the settings table is empty. -/
def Database.new (ext : Ext) (st0 : DbState) (cfg : EncryptionConfig) :
    Except DbError Db := do
  let st1 ← run_migrations ext st0
  let db0 : Db := ⟨st1, none, cfg⟩
  let db1 ←
    if db0.state.categories.isEmpty then
      getDefaultCategories.foldlM
        (fun db c =>
          let r := Db.save_category ext db c
          match r.2 with
          | some e => Except.error e
          | none => Except.ok r.1)
        db0
    else pure db0
  let db2 :=
    if db1.state.user_settings.isNone then
      db1.save_user_settings ext (UserSettings.new ext.currentYear)
    else db1
  pure db2

/-! ## Backup (src/db.rs lines 479-638) -/

/-- `Database::backup_to_file`: an encrypted backup of an unencrypted
store is refused with the precondition error before anything is written;
an encrypted backup is a page-level clone of the live file; an unencrypted
backup rebuilds the schema and copies every row, decrypting the settings
payload (a decryption failure aborts the backup transaction).  The result
is the contents written to the target file; an error writes nothing
through the modelled paths. -/
def Db.backup_to_file (db : Db) (encrypted_backup : Bool) :
    Except DbError DbState :=
  if encrypted_backup && !db.is_encrypted then .error .preconditionFailed
  else if encrypted_backup then .ok db.state
  else
    match db.state.user_settings with
    | some blob => do
        let pt ← db.decrypt_data blob
        .ok { db.state with user_settings := some pt }
    | none => .ok { db.state with user_settings := none }

/-! ## Restore (src/db.rs lines 640-906) -/

/-- Injected I/O faults for the six SQL statements inside the restore
transaction (clear flows, clear categories, clear user_settings, insert
categories, insert flows, insert user_settings).  A set flag makes that
statement fail, modelling a SQLite error at that step. -/
structure StepFaults where
  clearFlows : Bool
  clearCategories : Bool
  clearSettings : Bool
  insertCategories : Bool
  insertFlows : Bool
  insertSettings : Bool
  deriving DecidableEq, Repr

/-- Whether any restore step is set to fail. -/
def anyFault (f : StepFaults) : Bool :=
  f.clearFlows || f.clearCategories || f.clearSettings ||
  f.insertCategories || f.insertFlows || f.insertSettings

/-- One fallible SQL statement: fail when the fault flag is set, otherwise
produce the updated working state. -/
def stepGuard (fault : Bool) (st : DbState) : Except DbError DbState :=
  if fault then .error .sqliteFailure else .ok st

/-- `Database::restore_unencrypted` (src/db.rs lines 722-809): collect all
rows from the backup connection first (the settings payload is re-encrypted
into the live store's current encryption mode), then in one transaction
clear flows, categories and settings and insert the collected rows; the
commit only happens when every step succeeded, so a failed step leaves the
live state untouched. -/
def Db.restore_unencrypted (ext : Ext) (db : Db) (backup : DbState)
    (f : StepFaults) : Db × Option DbError :=
  let cats := backup.categories
  let flows := backup.flows
  let settings := backup.user_settings.map (fun s => db.encrypt_data ext.rngSeed s)
  let r := runTx db.state (fun st => do
    let st ← stepGuard f.clearFlows { st with flows := [] }
    let st ← stepGuard f.clearCategories { st with categories := [] }
    let st ← stepGuard f.clearSettings { st with user_settings := none }
    let st ← stepGuard f.insertCategories { st with categories := cats }
    let st ← stepGuard f.insertFlows { st with flows := flows }
    let st ← stepGuard f.insertSettings
      (match settings with
       | some s => { st with user_settings := some s }
       | none => st)
    pure st)
  ({ db with state := r.1 }, r.2)

/-- `Database::restore_from_file` (src/db.rs lines 646-675): require the
file to exist, detect its encryption state (the heuristic's verdict is an
input), demand a password for a detected-encrypted backup unless forced,
take the page-clone path for a detected-encrypted backup with a password
(after verifying it against the live config), and otherwise restore as
unencrypted. -/
def Db.restore_from_file (ext : Ext) (db : Db) (fileExists : Bool)
    (detectedEncrypted : Bool) (password : Option ByteStr) (force : Bool)
    (backup : DbState) (f : StepFaults) : Db × Option DbError :=
  if !fileExists then (db, some .backupMissing)
  else if detectedEncrypted && password.isNone && !force then
    (db, some .passwordRequired)
  else
    match detectedEncrypted, password with
    | true, some p =>
        if db.config.verify_password p then ({ db with state := backup }, none)
        else (db, some .passwordMismatch)
    | _, _ => db.restore_unencrypted ext backup f


/-- A concrete external-collaborator instance used by witnesses: trivial
serializers and parsers, clock year 2025, RNG seed 0. -/
def extTest : Ext where
  serFields := fun _ => ""
  deFields := fun _ => some []
  serMap := fun _ => ""
  deMap := fun _ => some []
  serSettings := fun _ => []
  deSettings := fun _ => none
  parseI64 := fun _ => none
  parseF64 := fun _ => none
  dateYmd := fun _ => false
  dateMdy := fun _ => none
  currentYear := 2025
  rngSeed := 0

/-- A concrete external-collaborator instance for the coercion witness:
an i64 parser accepting exactly "7" and an f64 parser accepting exactly
"2.9" (as the exact rational 29/10). -/
def extC7 : Ext where
  serFields := fun _ => ""
  deFields := fun _ => some []
  serMap := fun _ => ""
  deMap := fun _ => some []
  serSettings := fun _ => []
  deSettings := fun _ => none
  parseI64 := fun s => if s = "7" then some 7 else none
  parseF64 := fun s => if s = "2.9" then some ((29 : Rat) / 10) else none
  dateYmd := fun _ => false
  dateMdy := fun _ => none
  currentYear := 2025
  rngSeed := 0

/-- A concrete live store for the restore witness: one category, one flow,
a settings row, and a recorded migration; no cipher. -/
def dbW : Db :=
  ⟨⟨[⟨"c1", "Cat", "Income", "[]", 1, 0⟩],
    [⟨"f1", "2024-01-01", 5, "c1", "d", "[]", "", none⟩],
    some [123], [("convert_number_to_float", 1)]⟩,
   none, EncryptionConfig.default⟩

/-- A concrete backup file for the restore witness. -/
def backupW : DbState :=
  ⟨[⟨"c2", "Cat2", "Expense", "[]", 0, 0⟩], [], some [34], []⟩

/-! ## Supporting lemmas: base64 -/

theorem b64Table_length : b64Table.length = 64 := by decide

theorem b64_roundtrip_fin : ∀ s : Fin 64, b64SextetOf (b64CharOf s.val) = some s.val := by
  decide

theorem b64SextetOf_b64CharOf (s : Nat) (hs : s < 64) :
    b64SextetOf (b64CharOf s) = some s :=
  b64_roundtrip_fin ⟨s, hs⟩

theorem b64CharOf_ne_fin : ∀ s : Fin 64, b64CharOf s.val ≠ 61 := by decide

theorem b64CharOf_ne_61 (s : Nat) : b64CharOf s ≠ 61 := by
  by_cases h : s < 64
  · exact b64CharOf_ne_fin ⟨s, h⟩
  · unfold b64CharOf
    rw [List.getD_eq_default]
    · omega
    · rw [b64Table_length]; omega

theorem b64Decode_four (c0 c1 c2 c3 : Nat) :
    b64Decode [c0, c1, c2, c3] = b64DecodeLast c0 c1 c2 c3 := rfl

theorem b64Decode_cons (c0 c1 c2 c3 c4 : Nat) (t : List Nat) :
    b64Decode (c0 :: c1 :: c2 :: c3 :: c4 :: t) =
      match b64DecodeQuad c0 c1 c2 c3, b64Decode (c4 :: t) with
      | some bs, some tail => some (bs ++ tail)
      | _, _ => none := rfl

theorem b64DecodeQuad_encode (b0 b1 b2 : Nat) (h0 : b0 < 256) (h1 : b1 < 256)
    (h2 : b2 < 256) :
    b64DecodeQuad (b64CharOf (b0 / 4)) (b64CharOf (b0 % 4 * 16 + b1 / 16))
      (b64CharOf (b1 % 16 * 4 + b2 / 64)) (b64CharOf (b2 % 64)) =
      some [b0, b1, b2] := by
  have e0 := b64SextetOf_b64CharOf (b0 / 4) (by omega)
  have e1 := b64SextetOf_b64CharOf (b0 % 4 * 16 + b1 / 16) (by omega)
  have e2 := b64SextetOf_b64CharOf (b1 % 16 * 4 + b2 / 64) (by omega)
  have e3 := b64SextetOf_b64CharOf (b2 % 64) (by omega)
  simp only [b64DecodeQuad, e0, e1, e2, e3, Option.some.injEq, List.cons.injEq,
    and_true]
  omega

theorem b64DecodeLast_pad2 (b0 : Nat) (h0 : b0 < 256) :
    b64DecodeLast (b64CharOf (b0 / 4)) (b64CharOf (b0 % 4 * 16)) 61 61 =
      some [b0] := by
  have e0 := b64SextetOf_b64CharOf (b0 / 4) (by omega)
  have e1 := b64SextetOf_b64CharOf (b0 % 4 * 16) (by omega)
  have h3 : b0 % 4 * 16 % 16 = 0 := by omega
  simp only [b64DecodeLast, and_self, if_true, e0, e1, h3, Option.some.injEq,
    List.cons.injEq, and_true]
  omega

theorem b64DecodeLast_pad1 (b0 b1 : Nat) (h0 : b0 < 256) (h1 : b1 < 256) :
    b64DecodeLast (b64CharOf (b0 / 4)) (b64CharOf (b0 % 4 * 16 + b1 / 16))
      (b64CharOf (b1 % 16 * 4)) 61 = some [b0, b1] := by
  have hne : ¬(b64CharOf (b1 % 16 * 4) = 61 ∧ (61 : Nat) = 61) := by
    have := b64CharOf_ne_61 (b1 % 16 * 4)
    tauto
  have e0 := b64SextetOf_b64CharOf (b0 / 4) (by omega)
  have e1 := b64SextetOf_b64CharOf (b0 % 4 * 16 + b1 / 16) (by omega)
  have e2 := b64SextetOf_b64CharOf (b1 % 16 * 4) (by omega)
  have h3 : b1 % 16 * 4 % 4 = 0 := by omega
  simp only [b64DecodeLast, if_neg hne, if_pos rfl, e0, e1, e2, h3,
    Option.some.injEq, List.cons.injEq, and_true]
  rw [if_neg (b64CharOf_ne_61 (b1 % 16 * 4))]
  simp only [if_true, Option.some.injEq, List.cons.injEq, and_true]
  omega

theorem b64_roundtrip : ∀ l : ByteStr, (∀ b ∈ l, b < 256) →
    b64Decode (b64Encode l) = some l := by
  intro l
  induction l using b64Encode.induct with
  | case1 => intro _; rfl
  | case2 b0 =>
    intro hl
    have h0 : b0 < 256 := hl b0 (by simp)
    rw [show b64Encode [b0] =
        [b64CharOf (b0 / 4), b64CharOf (b0 % 4 * 16), 61, 61] from rfl]
    rw [b64Decode_four]
    exact b64DecodeLast_pad2 b0 h0
  | case3 b0 b1 =>
    intro hl
    have h0 : b0 < 256 := hl b0 (by simp)
    have h1 : b1 < 256 := hl b1 (by simp)
    rw [show b64Encode [b0, b1] =
        [b64CharOf (b0 / 4), b64CharOf (b0 % 4 * 16 + b1 / 16),
         b64CharOf (b1 % 16 * 4), 61] from rfl]
    rw [b64Decode_four]
    exact b64DecodeLast_pad1 b0 b1 h0 h1
  | case4 b0 b1 b2 rest ih =>
    intro hl
    have h0 : b0 < 256 := hl b0 (by simp)
    have h1 : b1 < 256 := hl b1 (by simp)
    have h2 : b2 < 256 := hl b2 (by simp)
    have hrest : ∀ b ∈ rest, b < 256 := fun b hb => hl b (by simp [hb])
    rw [show b64Encode (b0 :: b1 :: b2 :: rest) =
        b64CharOf (b0 / 4) :: b64CharOf (b0 % 4 * 16 + b1 / 16) ::
        b64CharOf (b1 % 16 * 4 + b2 / 64) :: b64CharOf (b2 % 64) ::
        b64Encode rest from rfl]
    rcases rest with _ | ⟨x, xs⟩
    · rw [show b64Encode ([] : ByteStr) = [] from rfl, b64Decode_four]
      have hne2 : ¬(b64CharOf (b1 % 16 * 4 + b2 / 64) = 61 ∧
          b64CharOf (b2 % 64) = 61) := by
        have := b64CharOf_ne_61 (b1 % 16 * 4 + b2 / 64)
        tauto
      have hne3 := b64CharOf_ne_61 (b2 % 64)
      rw [b64DecodeLast, if_neg hne2, if_neg hne3]
      exact b64DecodeQuad_encode b0 b1 b2 h0 h1 h2
    · have hcons : ∃ d t, b64Encode (x :: xs) = d :: t := by
        rcases xs with _ | ⟨y, ys⟩
        · exact ⟨_, _, rfl⟩
        · rcases ys with _ | ⟨z, zs⟩
          · exact ⟨_, _, rfl⟩
          · exact ⟨_, _, rfl⟩
      obtain ⟨d, t, hdt⟩ := hcons
      rw [hdt, b64Decode_cons, b64DecodeQuad_encode b0 b1 b2 h0 h1 h2, ← hdt,
        ih hrest]
      rfl

/-! ## Supporting lemmas: byte bounds -/

theorem nonce12_length (seed : Nat) : (nonce12 seed).length = 12 := by
  simp [nonce12]

theorem nonce12_lt (seed : Nat) : ∀ b ∈ nonce12 seed, b < 256 := by
  intro b hb
  simp only [nonce12, List.mem_map, List.mem_range] at hb
  obtain ⟨i, _, hi⟩ := hb
  omega

theorem gcmKeystream_length (key nonce : ByteStr) (n : Nat) :
    (gcmKeystream key nonce n).length = n := by
  simp [gcmKeystream]

theorem gcmMixByte_lt (key nonce : ByteStr) (i : Nat) :
    gcmMixByte key nonce i < 256 := by
  unfold gcmMixByte
  omega

theorem gcmKeystream_lt (key nonce : ByteStr) (n : Nat) :
    ∀ b ∈ gcmKeystream key nonce n, b < 256 := by
  intro b hb
  simp only [gcmKeystream, List.mem_map, List.mem_range] at hb
  obtain ⟨i, _, hi⟩ := hb
  rw [← hi]
  exact gcmMixByte_lt key nonce i

theorem gcmTag_length (key nonce ct : ByteStr) : (gcmTag key nonce ct).length = 16 := by
  simp [gcmTag]

theorem gcmTag_lt (key nonce ct : ByteStr) : ∀ b ∈ gcmTag key nonce ct, b < 256 := by
  intro b hb
  simp only [gcmTag, List.mem_map, List.mem_range] at hb
  obtain ⟨i, _, hi⟩ := hb
  omega

theorem zipXor_length (a k : ByteStr) (h : a.length = k.length) :
    (zipXor a k).length = a.length := by
  simp [zipXor, List.length_zipWith, h]

theorem zipXor_lt (a k : ByteStr) (ha : ∀ b ∈ a, b < 256)
    (hk : ∀ b ∈ k, b < 256) : ∀ b ∈ zipXor a k, b < 256 := by
  induction a generalizing k with
  | nil => intro b hb; simp [zipXor] at hb
  | cons x xs ih =>
    intro b hb
    cases k with
    | nil => simp [zipXor] at hb
    | cons y ys =>
      simp only [zipXor, List.zipWith_cons_cons, List.mem_cons] at hb
      rcases hb with hb | hb
      · have hx : x < 256 := ha x (by simp)
        have hy : y < 256 := hk y (by simp)
        have : x ^^^ y < 2 ^ 8 :=
          Nat.xor_lt_two_pow (by omega) (by omega)
        omega
      · exact ih ys (fun b hb => ha b (by simp [hb]))
          (fun b hb => hk b (by simp [hb])) b hb

theorem zipXor_cancel (a k : ByteStr) (h : a.length = k.length) :
    zipXor (zipXor a k) k = a := by
  induction a generalizing k with
  | nil => simp [zipXor]
  | cons x xs ih =>
    cases k with
    | nil => simp at h
    | cons y ys =>
      simp only [zipXor, List.zipWith_cons_cons, List.cons.injEq]
      refine ⟨Nat.xor_cancel_right y x, ?_⟩
      exact ih ys (by simpa using h)

/-! ## Supporting lemmas: the cipher -/

theorem decryptPayload_tagged (key nonce ct tag : ByteStr)
    (ht : tag.length = 16) (htag : tag = gcmTag key nonce ct) :
    decryptPayload key nonce (ct ++ tag) =
      checkUtf8 (zipXor ct (gcmKeystream key nonce ct.length)) := by
  have hlen : (ct ++ tag).length = ct.length + 16 := by
    rw [List.length_append, ht]
  have hsub : (ct ++ tag).length - 16 = ct.length := by omega
  unfold decryptPayload
  rw [if_neg (by omega), hsub, List.take_left, List.drop_left, if_pos htag]

theorem decrypt_encrypt (enc : DatabaseEncryption) (seed : Nat) (pt : ByteStr)
    (hv : utf8Valid pt = true) (hb : ∀ b ∈ pt, b < 256) :
    enc.decrypt (enc.encrypt seed pt) = .ok pt := by
  have hk := gcmKeystream_length enc.key (nonce12 seed) pt.length
  have hct : (zipXor pt (gcmKeystream enc.key (nonce12 seed) pt.length)).length
      = pt.length := zipXor_length _ _ (by rw [hk])
  have hcomb : ∀ b ∈ nonce12 seed ++
      (zipXor pt (gcmKeystream enc.key (nonce12 seed) pt.length) ++
       gcmTag enc.key (nonce12 seed)
         (zipXor pt (gcmKeystream enc.key (nonce12 seed) pt.length))), b < 256 := by
    intro b hbm
    rcases List.mem_append.mp hbm with hbm | hbm
    · exact nonce12_lt seed b hbm
    · rcases List.mem_append.mp hbm with hbm | hbm
      · exact zipXor_lt pt _ hb (gcmKeystream_lt _ _ _) b hbm
      · exact gcmTag_lt _ _ _ b hbm
  show DatabaseEncryption.decrypt enc
      (b64Encode (nonce12 seed ++
        (zipXor pt (gcmKeystream enc.key (nonce12 seed) pt.length) ++
         gcmTag enc.key (nonce12 seed)
           (zipXor pt (gcmKeystream enc.key (nonce12 seed) pt.length))))) = .ok pt
  unfold DatabaseEncryption.decrypt
  rw [b64_roundtrip _ hcomb]
  show decryptCombined enc.key _ = .ok pt
  unfold decryptCombined
  rw [if_neg (by rw [List.length_append, nonce12_length]; omega)]
  rw [show (12 : Nat) = (nonce12 seed).length from (nonce12_length seed).symm,
    List.take_left, List.drop_left]
  rw [decryptPayload_tagged _ _ _ _ (gcmTag_length _ _ _) rfl, hct]
  rw [zipXor_cancel pt _ (by rw [hk])]
  unfold checkUtf8
  rw [if_pos hv]

theorem deriveKeyBytes_congr (p1 s1 p2 s2 : ByteStr) (h : p1 ++ s1 = p2 ++ s2) :
    deriveKeyBytes p1 s1 = deriveKeyBytes p2 s2 := by
  unfold deriveKeyBytes
  rw [h]

theorem mem_append_lt (a b : ByteStr) (ha : ∀ x ∈ a, x < 256)
    (hbb : ∀ x ∈ b, x < 256) : ∀ x ∈ a ++ b, x < 256 := by
  intro x hx
  rcases List.mem_append.mp hx with hx | hx
  · exact ha x hx
  · exact hbb x hx

theorem decryptPayload_mismatch (key nonce ct tag : ByteStr)
    (ht : tag.length = 16) (hne : tag ≠ gcmTag key nonce ct) :
    decryptPayload key nonce (ct ++ tag) = .error .decryptError := by
  have hlen : (ct ++ tag).length = ct.length + 16 := by
    rw [List.length_append, ht]
  have hsub : (ct ++ tag).length - 16 = ct.length := by omega
  unfold decryptPayload
  rw [if_neg (by omega), hsub, List.take_left, List.drop_left, if_neg hne]

/-! ## Claims about the cipher (C2, C3) -/

/-- Claim C2, amended.  For every plaintext that is the byte sequence of a
Rust string (valid UTF-8, bytes below 256), every key and every nonce seed,
decrypting the result of encrypting it under the same key yields the
plaintext back; and decrypting that blob under any other key fails closed
with the decryption error whenever the authentication tag recomputed under
that key differs from the stored tag.  (The claim's stronger statement —
that a key derived from any *different* (password, salt) pair always fails
— is false: the derivation concatenates password and salt, so distinct
pairs can derive the identical key; see the counterexample.) -/
theorem claim_C2_encrypt_decrypt (key : ByteStr) (seed : Nat) (pt : ByteStr)
    (hv : utf8Valid pt = true) (hb : ∀ b ∈ pt, b < 256) :
    DatabaseEncryption.decrypt ⟨key⟩ (DatabaseEncryption.encrypt ⟨key⟩ seed pt) =
      .ok pt ∧
    ∀ key2 : ByteStr,
      gcmTag key2 (nonce12 seed)
          (zipXor pt (gcmKeystream key (nonce12 seed) pt.length)) ≠
        gcmTag key (nonce12 seed)
          (zipXor pt (gcmKeystream key (nonce12 seed) pt.length)) →
      DatabaseEncryption.decrypt ⟨key2⟩ (DatabaseEncryption.encrypt ⟨key⟩ seed pt) =
        .error .decryptError := by
  constructor
  · exact decrypt_encrypt ⟨key⟩ seed pt hv hb
  · intro key2 hne
    have hcomb : ∀ x ∈ nonce12 seed ++
        (zipXor pt (gcmKeystream key (nonce12 seed) pt.length) ++
         gcmTag key (nonce12 seed)
           (zipXor pt (gcmKeystream key (nonce12 seed) pt.length))), x < 256 :=
      mem_append_lt _ _ (nonce12_lt seed)
        (mem_append_lt _ _ (zipXor_lt pt _ hb (gcmKeystream_lt _ _ _))
          (gcmTag_lt _ _ _))
    show DatabaseEncryption.decrypt ⟨key2⟩
        (b64Encode (nonce12 seed ++
          (zipXor pt (gcmKeystream key (nonce12 seed) pt.length) ++
           gcmTag key (nonce12 seed)
             (zipXor pt (gcmKeystream key (nonce12 seed) pt.length))))) =
        .error .decryptError
    unfold DatabaseEncryption.decrypt
    rw [b64_roundtrip _ hcomb]
    show decryptCombined key2 _ = .error .decryptError
    unfold decryptCombined
    rw [if_neg (by rw [List.length_append, nonce12_length]; omega)]
    rw [show (12 : Nat) = (nonce12 seed).length from (nonce12_length seed).symm,
      List.take_left, List.drop_left]
    exact decryptPayload_mismatch key2 _ _ _ (gcmTag_length _ _ _)
      (Ne.symm hne)

/-- Claim C2, witness: the round trip and the tag-mismatch failure at
concrete inputs (key [5], wrong key [6], plaintext "hi", nonce seed 0). -/
theorem claim_C2_encrypt_decrypt_witness :
    (utf8Valid [104, 105] = true ∧ ∀ b ∈ ([104, 105] : ByteStr), b < 256) ∧
    DatabaseEncryption.decrypt ⟨[5]⟩
      (DatabaseEncryption.encrypt ⟨[5]⟩ 0 [104, 105]) = .ok [104, 105] ∧
    DatabaseEncryption.decrypt ⟨[6]⟩
      (DatabaseEncryption.encrypt ⟨[5]⟩ 0 [104, 105]) = .error .decryptError := by
  have h := claim_C2_encrypt_decrypt [5] 0 [104, 105] (by decide) (by decide)
  exact ⟨⟨by decide, by decide⟩, h.1, h.2 [6] (by decide)⟩

/-- Claim C2, counterexample to the claim as stated: the distinct
(password, salt) pairs ("ab", "c") and ("a", "bc") derive the identical
key, because the derivation digests the bare concatenation password ‖ salt;
decrypting a blob encrypted under the first pair with the key derived from
the second pair therefore succeeds and returns the plaintext "hi" instead
of an error. -/
theorem claim_C2_counterexample :
    (([97, 98], [99]) : ByteStr × ByteStr) ≠ (([97], [98, 99]) : ByteStr × ByteStr) ∧
    DatabaseEncryption.decrypt (DatabaseEncryption.new [97] [98, 99])
      (DatabaseEncryption.encrypt (DatabaseEncryption.new [97, 98] [99]) 0
        [104, 105]) = .ok [104, 105] := by
  constructor
  · decide
  · have hkey : DatabaseEncryption.new [97] [98, 99] =
        DatabaseEncryption.new [97, 98] [99] :=
      congrArg DatabaseEncryption.mk
        (deriveKeyBytes_congr [97] [98, 99] [97, 98] [99] (by decide))
    rw [hkey]
    exact decrypt_encrypt _ 0 [104, 105] (by decide) (by decide)

/-- Claim C3: the stored verification hash is exactly the base64 encoding
of the derived AES key bytes — `hash_password` and `new` run the
byte-identical derivation pipeline, so knowing the stored hash yields the
symmetric key.  This contradicts the claim (and the spec), which require
the hash never to be the key material or an encoding of the same bytes:
the code is the slip, the spec states the intent. -/
theorem claim_C3_hash_is_key_encoding (password salt : ByteStr) :
    DatabaseEncryption.hash_password password salt =
      b64Encode (DatabaseEncryption.new password salt).key := rfl

/-! ## Claims about the relational store (C4, C5, C6, C9, C10) -/

/-- Claim C4 (code bug): on a store whose categories table is empty,
`Database::new` does not succeed with the default seed set — seeding runs
through `save_category`, whose `get_category` lookup maps the missing row
to the raw `QueryReturnedNoRows` error (its `Ok(None)` arm matches
`ExecuteReturnedResults`, which never occurs), so the very first default
category aborts `new()` with that error, for every choice of external
collaborators and loaded config. -/
theorem claim_C4_open_empty_store_fails (ext : Ext) (cfg : EncryptionConfig) :
    Database.new ext emptyDbState cfg = .error .queryReturnedNoRows := rfl

/-- Claim C5, amended: `save_category` on a category id with no existing
row fails — with the raw `QueryReturnedNoRows` lookup error rather than
the authored `Category not found` error, which sits behind an unreachable
match arm — and the transaction rollback leaves the store (categories and
flows alike) exactly unchanged. -/
theorem claim_C5_save_category_missing (ext : Ext) (db : Db) (c : Category)
    (h : db.state.categories.find? (fun r => r.id == c.id) = none) :
    (db.save_category ext c).2 = some .queryReturnedNoRows ∧
    (db.save_category ext c).1 = db := by
  unfold Db.save_category runTx saveCategoryTx getCategory
  rw [h]
  exact ⟨rfl, rfl⟩

/-- Claim C5, witness: a store holding only the `salary` row, and a
category with the fresh id `fresh`. -/
theorem claim_C5_save_category_missing_witness :
    ((⟨⟨[⟨"salary", "Salary", "Income", "[]", 0, 0⟩], [], none, []⟩, none,
        EncryptionConfig.default⟩ : Db).state.categories.find?
      (fun r => r.id == "fresh") = none) ∧
    (Db.save_category extTest
        ⟨⟨[⟨"salary", "Salary", "Income", "[]", 0, 0⟩], [], none, []⟩, none,
          EncryptionConfig.default⟩
        ⟨"fresh", "Fresh", .Income, none, [], ⟨false, false⟩⟩).2 =
      some .queryReturnedNoRows ∧
    (Db.save_category extTest
        ⟨⟨[⟨"salary", "Salary", "Income", "[]", 0, 0⟩], [], none, []⟩, none,
          EncryptionConfig.default⟩
        ⟨"fresh", "Fresh", .Income, none, [], ⟨false, false⟩⟩).1 =
      ⟨⟨[⟨"salary", "Salary", "Income", "[]", 0, 0⟩], [], none, []⟩, none,
        EncryptionConfig.default⟩ := by
  have h := claim_C5_save_category_missing extTest
    ⟨⟨[⟨"salary", "Salary", "Income", "[]", 0, 0⟩], [], none, []⟩, none,
      EncryptionConfig.default⟩
    ⟨"fresh", "Fresh", .Income, none, [], ⟨false, false⟩⟩ (by decide)
  exact ⟨by decide, h.1, h.2⟩

/-- Claim C5, counterexample to the claim as stated: at the same concrete
input the returned error is `QueryReturnedNoRows`, not the `NotFound`
error the claim names. -/
theorem claim_C5_counterexample :
    (Db.save_category extTest
        ⟨⟨[⟨"salary", "Salary", "Income", "[]", 0, 0⟩], [], none, []⟩, none,
          EncryptionConfig.default⟩
        ⟨"fresh2", "Fresh2", .Income, none, [], ⟨false, false⟩⟩).2 =
      some .queryReturnedNoRows ∧
    some DbError.queryReturnedNoRows ≠ some (DbError.notFound "fresh2") := by
  exact ⟨by decide, by decide⟩

/-- Claim C6, amended: `load_user_settings` returns fresh defaults when no
settings row exists, and when the stored payload decrypts but fails to
deserialize; but a decryption failure is propagated as an error via `?`,
not converted to defaults. -/
theorem claim_C6_load_user_settings (ext : Ext) (db : Db) :
    (db.state.user_settings = none →
      db.load_user_settings ext = .ok (UserSettings.new ext.currentYear)) ∧
    (∀ blob json, db.state.user_settings = some blob →
      db.decrypt_data blob = .ok json → ext.deSettings json = none →
      db.load_user_settings ext = .ok (UserSettings.new ext.currentYear)) ∧
    (∀ blob json s, db.state.user_settings = some blob →
      db.decrypt_data blob = .ok json → ext.deSettings json = some s →
      db.load_user_settings ext = .ok s) ∧
    (∀ blob e, db.state.user_settings = some blob →
      db.decrypt_data blob = .error e →
      db.load_user_settings ext = .error e) := by
  refine ⟨?_, ?_, ?_, ?_⟩
  · intro h
    unfold Db.load_user_settings
    rw [h]
  · intro blob json h hd hde
    unfold Db.load_user_settings
    rw [h]
    show (db.decrypt_data blob).bind _ = _
    rw [hd]
    show (match ext.deSettings json with
      | some s => pure s
      | none => pure (UserSettings.new ext.currentYear) :
        Except DbError UserSettings) = _
    rw [hde]
    rfl
  · intro blob json st h hd hde
    unfold Db.load_user_settings
    rw [h]
    show (db.decrypt_data blob).bind _ = _
    rw [hd]
    show (match ext.deSettings json with
      | some s => pure s
      | none => pure (UserSettings.new ext.currentYear) :
        Except DbError UserSettings) = _
    rw [hde]
    rfl
  · intro blob e h hd
    unfold Db.load_user_settings
    rw [h]
    show (db.decrypt_data blob).bind _ = _
    rw [hd]
    rfl

/-- Claim C6, witness: defaults on an absent row; the propagated failure
on a payload ("!", invalid base64) that does not decrypt under the active
cipher. -/
theorem claim_C6_load_user_settings_witness :
    Db.load_user_settings extTest ⟨⟨[], [], none, []⟩, none,
        EncryptionConfig.default⟩ = .ok (UserSettings.new 2025) ∧
    Db.load_user_settings extTest ⟨⟨[], [], some [33], []⟩, some ⟨[0]⟩,
        EncryptionConfig.default⟩ = .error .base64DecodeFailed := by
  have h1 := (claim_C6_load_user_settings extTest
    ⟨⟨[], [], none, []⟩, none, EncryptionConfig.default⟩).1 rfl
  have h2 := (claim_C6_load_user_settings extTest
    ⟨⟨[], [], some [33], []⟩, some ⟨[0]⟩, EncryptionConfig.default⟩).2.2.2
    [33] .base64DecodeFailed rfl rfl
  exact ⟨h1, h2⟩

/-- Claim C6, counterexample to the claim as stated: with encryption
active and a stored payload that fails to decrypt, `load_user_settings`
returns an error, not fresh default settings. -/
theorem claim_C6_counterexample :
    Db.load_user_settings extTest ⟨⟨[], [], some [33], []⟩, some ⟨[0]⟩,
        EncryptionConfig.default⟩ = .error .base64DecodeFailed ∧
    (Except.error DbError.base64DecodeFailed ≠
      (Except.ok (UserSettings.new 2025) : Except DbError UserSettings)) := by
  exact ⟨rfl, fun h => Except.noConfusion h⟩

/-- Claim C9: requesting an encrypted backup of a store whose
`is_encrypted()` is false fails with the precondition error before the
page-clone path writes anything. -/
theorem claim_C9_encrypted_backup_gating (db : Db)
    (h : db.is_encrypted = false) :
    db.backup_to_file true = .error .preconditionFailed := by
  unfold Db.backup_to_file
  rw [h]
  rfl

/-- Claim C9, witness: a store with the default (password-less) config. -/
theorem claim_C9_encrypted_backup_gating_witness :
    (Db.is_encrypted ⟨emptyDbState, none, EncryptionConfig.default⟩ = false) ∧
    Db.backup_to_file ⟨emptyDbState, none, EncryptionConfig.default⟩ true =
      .error .preconditionFailed :=
  ⟨by decide, claim_C9_encrypted_backup_gating _ (by decide)⟩

/-- Claim C10, amended: `EncryptionConfig::load` returns the default
config (enabled, not database-encrypted, no hash, no salt) when the vault
entry is absent or its read fails; but it propagates an error when the
vault entry handle cannot be created or when a present entry's payload
fails to deserialize — so it is not failure-free as claimed. -/
theorem claim_C10_config_load (read : VaultRead)
    (de : String → Option EncryptionConfig) :
    (EncryptionConfig.load true .noEntry de = .ok ⟨true, none, none, false⟩) ∧
    (EncryptionConfig.load true .failure de = .ok ⟨true, none, none, false⟩) ∧
    (EncryptionConfig.load false read de = .error .keyringError) ∧
    (∀ s, de s = none →
      EncryptionConfig.load true (.value s) de = .error .serdeError) ∧
    (∀ s c, de s = some c →
      EncryptionConfig.load true (.value s) de = .ok c) := by
  refine ⟨rfl, rfl, rfl, ?_, ?_⟩
  · intro s hs
    show (match de s with
      | some c => Except.ok c
      | none => Except.error DbError.serdeError) = _
    rw [hs]
  · intro s c hs
    show (match de s with
      | some c => Except.ok c
      | none => Except.error DbError.serdeError) = _
    rw [hs]

/-- Claim C10, witness: the default on an absent entry, and the propagated
deserialization failure on a malformed stored payload. -/
theorem claim_C10_config_load_witness :
    EncryptionConfig.load true .noEntry (fun _ => none) =
      .ok ⟨true, none, none, false⟩ ∧
    EncryptionConfig.load true (.value "x") (fun _ => none) =
      .error .serdeError := by
  have h := claim_C10_config_load .noEntry (fun _ => none)
  exact ⟨h.1, h.2.2.2.1 "x" rfl⟩

/-- Claim C10, counterexample to the claim as stated: a present vault
entry whose payload the deserializer rejects (as serde_json does on
malformed JSON) makes `load` return an error instead of the default
config. -/
theorem claim_C10_counterexample :
    EncryptionConfig.load true (.value "not json") (fun _ => none) =
      .error .serdeError ∧
    (Except.error DbError.serdeError ≠
      (Except.ok EncryptionConfig.default :
        Except DbError EncryptionConfig)) := by
  exact ⟨rfl, fun h => Except.noConfusion h⟩

/-! ## Claim about the versioned migration engine (C8) -/

/-- Claim C8: the versioned migration engine is idempotent — whenever a
run succeeds, the resulting ledger contains the (name, version) pair of
the built-in migration, and running the engine again on the resulting
store is a no-op that returns the store unchanged (in particular with the
ledger length unchanged and nothing reapplied). -/
theorem claim_C8_migrations_idempotent (ext : Ext) (st st1 : DbState)
    (h : run_migrations ext st = .ok st1) :
    numberToFloatKey ∈ st1.migrations ∧ run_migrations ext st1 = .ok st1 := by
  by_cases hmem : numberToFloatKey ∈ st.migrations
  · rw [run_migrations, if_pos hmem] at h
    have hst : st = st1 := Except.ok.inj h
    subst hst
    exact ⟨hmem, by rw [run_migrations, if_pos hmem]⟩
  · rw [run_migrations, if_neg hmem] at h
    cases hc : convertNumberToFloat ext st with
    | error e =>
      rw [hc] at h
      simp only [bind, Except.bind] at h
      cases h
    | ok st2 =>
      rw [hc] at h
      simp only [bind, Except.bind] at h
      cases hv : validateMigration ext st2.categories with
      | error e =>
        rw [hv] at h
        simp only [bind, Except.bind] at h
        cases h
      | ok b =>
        rw [hv] at h
        simp only [bind, Except.bind] at h
        cases b with
        | false => simp at h
        | true =>
          simp only [if_pos rfl] at h
          have hst : { st2 with migrations :=
              st2.migrations ++ [numberToFloatKey] } = st1 := Except.ok.inj h
          have hmem1 : numberToFloatKey ∈ st1.migrations := by
            rw [← hst]
            simp
          exact ⟨hmem1, by rw [run_migrations, if_pos hmem1]⟩

/-- Claim C8, witness: a first run on the empty store applies and records
the migration; the theorem then gives that the second run returns the
store unchanged. -/
theorem claim_C8_migrations_idempotent_witness :
    run_migrations extTest emptyDbState =
      .ok ⟨[], [], none, [numberToFloatKey]⟩ ∧
    numberToFloatKey ∈ (⟨[], [], none, [numberToFloatKey]⟩ : DbState).migrations ∧
    run_migrations extTest ⟨[], [], none, [numberToFloatKey]⟩ =
      .ok ⟨[], [], none, [numberToFloatKey]⟩ := by
  have h0 : run_migrations extTest emptyDbState =
      .ok ⟨[], [], none, [numberToFloatKey]⟩ := rfl
  have h := claim_C8_migrations_idempotent extTest emptyDbState
    ⟨[], [], none, [numberToFloatKey]⟩ h0
  exact ⟨h0, h.1, h.2⟩

/-! ## Claim about the schema-diff flow migration (C7) -/

/-- Claim C7: the per-value coercion applied by
`migrate_flows_to_new_category` treats stored values as the claim states:
a value whose trimmed form is empty is always left untouched; for an
Integer field a non-empty value the i64 parser accepts is kept, one only
the f64 parser accepts is overwritten with its truncation rendered as an
integer, and one neither parser accepts is dropped; for a Boolean field
the lowercased tokens true/1/yes/y map to "true", false/0/no/n map to
"false", and any other token drops the field. -/
theorem claim_C7_coercion (ext : Ext) (v : String) :
    (∀ ft, applyCoercion ext ft "" = .keep) ∧
    (trimIsEmpty v = false → ∀ n, ext.parseI64 v = some n →
      applyCoercion ext .Integer v = .keep) ∧
    (trimIsEmpty v = false → ∀ q, ext.parseI64 v = none →
      ext.parseF64 v = some q →
      applyCoercion ext .Integer v = .set (toString (i64SatTrunc q))) ∧
    (trimIsEmpty v = false → ext.parseI64 v = none → ext.parseF64 v = none →
      applyCoercion ext .Integer v = .drop) ∧
    (trimIsEmpty v = false →
      (rustLower v = "true" ∨ rustLower v = "1" ∨ rustLower v = "yes" ∨
        rustLower v = "y") →
      applyCoercion ext .Boolean v = .set "true") ∧
    (trimIsEmpty v = false →
      (rustLower v = "false" ∨ rustLower v = "0" ∨ rustLower v = "no" ∨
        rustLower v = "n") →
      applyCoercion ext .Boolean v = .set "false") ∧
    (trimIsEmpty v = false →
      ¬(rustLower v = "true" ∨ rustLower v = "1" ∨ rustLower v = "yes" ∨
        rustLower v = "y") →
      ¬(rustLower v = "false" ∨ rustLower v = "0" ∨ rustLower v = "no" ∨
        rustLower v = "n") →
      applyCoercion ext .Boolean v = .drop) := by
  have hbool : ∀ (hv : trimIsEmpty v = false),
      applyCoercion ext .Boolean v =
        (if rustLower v = "true" ∨ rustLower v = "1" ∨ rustLower v = "yes" ∨
            rustLower v = "y" then Coerce.set "true"
          else if rustLower v = "false" ∨ rustLower v = "0" ∨
            rustLower v = "no" ∨ rustLower v = "n" then Coerce.set "false"
          else Coerce.drop) := by
    intro hv
    unfold applyCoercion
    rw [if_neg (by rw [hv]; exact Bool.false_ne_true)]
  refine ⟨?_, ?_, ?_, ?_, ?_, ?_, ?_⟩
  · intro ft
    unfold applyCoercion
    rw [if_pos (show trimIsEmpty "" = true from rfl)]
  · intro hv n hn
    unfold applyCoercion
    rw [if_neg (by rw [hv]; exact Bool.false_ne_true), hn]
  · intro hv q hn hq
    unfold applyCoercion
    rw [if_neg (by rw [hv]; exact Bool.false_ne_true), hn, hq]
  · intro hv hn hq
    unfold applyCoercion
    rw [if_neg (by rw [hv]; exact Bool.false_ne_true), hn, hq]
  · intro hv ht
    rw [hbool hv, if_pos ht]
  · intro hv hf
    have hnt : ¬(rustLower v = "true" ∨ rustLower v = "1" ∨
        rustLower v = "yes" ∨ rustLower v = "y") := by
      rcases hf with hf | hf | hf | hf <;> rw [hf] <;> decide
    rw [hbool hv, if_neg hnt, if_pos hf]
  · intro hv hnt hnf
    rw [hbool hv, if_neg hnt, if_neg hnf]

/-- Claim C7, witness: concrete parsers and values — "7" parses as i64 and
is kept, "2.9" parses only as f64 and is truncated, "abc" parses as
neither and is dropped; "YES" maps to "true", "No" maps to "false",
"maybe" is dropped, and "" is skipped for every field type. -/
theorem claim_C7_coercion_witness :
    applyCoercion extC7 .Integer "" = .keep ∧
    applyCoercion extC7 .Boolean "" = .keep ∧
    applyCoercion extC7 .Integer "7" = .keep ∧
    applyCoercion extC7 .Integer "2.9" =
      .set (toString (i64SatTrunc ((29 : Rat) / 10))) ∧
    applyCoercion extC7 .Integer "abc" = .drop ∧
    applyCoercion extC7 .Boolean "YES" = .set "true" ∧
    applyCoercion extC7 .Boolean "No" = .set "false" ∧
    applyCoercion extC7 .Boolean "maybe" = .drop := by
  refine ⟨(claim_C7_coercion extC7 "").1 .Integer,
    (claim_C7_coercion extC7 "").1 .Boolean,
    (claim_C7_coercion extC7 "7").2.1 (by decide) 7 rfl,
    (claim_C7_coercion extC7 "2.9").2.2.1 (by decide) ((29 : Rat) / 10) rfl rfl,
    (claim_C7_coercion extC7 "abc").2.2.2.1 (by decide) rfl rfl,
    (claim_C7_coercion extC7 "YES").2.2.2.2.1 (by decide) (by decide),
    (claim_C7_coercion extC7 "No").2.2.2.2.2.1 (by decide) (by decide),
    (claim_C7_coercion extC7 "maybe").2.2.2.2.2.2 (by decide) (by decide)
      (by decide)⟩

/-! ## Claim about restore atomicity (C1) -/

theorem restore_unencrypted_spec (ext : Ext) (db : Db) (backup : DbState)
    (f : StepFaults) :
    (anyFault f = true →
      db.restore_unencrypted ext backup f = (db, some .sqliteFailure)) ∧
    (anyFault f = false →
      db.restore_unencrypted ext backup f =
        ({ db with state := ⟨backup.categories, backup.flows,
            backup.user_settings.map (fun s => db.encrypt_data ext.rngSeed s),
            db.state.migrations⟩ }, none)) := by
  obtain ⟨a, b, c, d, e, g⟩ := f
  obtain ⟨bc, bf, bus, bm⟩ := backup
  constructor
  · cases a <;> cases b <;> cases c <;> cases d <;> cases e <;> cases g <;>
      intro h <;> first | rfl | exact Bool.noConfusion h
  · cases a <;> cases b <;> cases c <;> cases d <;> cases e <;> cases g <;>
      intro h <;>
      first
        | exact Bool.noConfusion h
        | (rcases bus with _ | sblob <;> rfl)

/-- Claim C1: for every restore routed through the unencrypted path (the
detection heuristic reports an unencrypted source, or recovery is forced
with no password), if any statement of the restore transaction fails —
clearing flows, categories or settings, or inserting the collected
categories, flows or settings — the live store is returned exactly
unchanged with the failure reported; and when every statement succeeds the
commit makes the live store hold precisely the collected backup rows, with
the settings payload re-encrypted into the live store's current encryption
mode and the migrations ledger untouched. -/
theorem claim_C1_restore_atomicity (ext : Ext) (db : Db) (backup : DbState)
    (f : StepFaults) (password : Option ByteStr) (force : Bool) (det : Bool)
    (hroute : det = false ∨ (password = none ∧ force = true)) :
    (anyFault f = true →
      Db.restore_from_file ext db true det password force backup f =
        (db, some .sqliteFailure)) ∧
    (anyFault f = false →
      Db.restore_from_file ext db true det password force backup f =
        ({ db with state := ⟨backup.categories, backup.flows,
            backup.user_settings.map (fun s => db.encrypt_data ext.rngSeed s),
            db.state.migrations⟩ }, none)) := by
  rcases hroute with hdet | ⟨hp, hf2⟩
  · subst hdet
    have hred : Db.restore_from_file ext db true false password force backup f =
        db.restore_unencrypted ext backup f := by
      rcases password with _ | p <;> rfl
    rw [hred]
    exact restore_unencrypted_spec ext db backup f
  · subst hp
    subst hf2
    cases det with
    | false =>
      have hred : Db.restore_from_file ext db true false none true backup f =
          db.restore_unencrypted ext backup f := rfl
      rw [hred]
      exact restore_unencrypted_spec ext db backup f
    | true =>
      have hred : Db.restore_from_file ext db true true none true backup f =
          db.restore_unencrypted ext backup f := rfl
      rw [hred]
      exact restore_unencrypted_spec ext db backup f

/-- Claim C1, witness: on the concrete live store `dbW` and backup
`backupW`, a restore whose insert-flows statement fails returns the live
store unchanged with the failure, and a fault-free restore commits the
backup contents. -/
theorem claim_C1_restore_atomicity_witness :
    anyFault ⟨false, false, false, false, true, false⟩ = true ∧
    Db.restore_from_file extTest dbW true false none false backupW
      ⟨false, false, false, false, true, false⟩ =
      (dbW, some .sqliteFailure) ∧
    Db.restore_from_file extTest dbW true false none false backupW
      ⟨false, false, false, false, false, false⟩ =
      ({ dbW with state := ⟨backupW.categories, backupW.flows,
          backupW.user_settings.map
            (fun s => dbW.encrypt_data extTest.rngSeed s),
          dbW.state.migrations⟩ }, none) := by
  have h1 := claim_C1_restore_atomicity extTest dbW backupW
    ⟨false, false, false, false, true, false⟩ none false false (Or.inl rfl)
  have h0 := claim_C1_restore_atomicity extTest dbW backupW
    ⟨false, false, false, false, false, false⟩ none false false (Or.inl rfl)
  exact ⟨by decide, h1.1 (by decide), h0.2 (by decide)⟩

end Preft
